import Mathlib

/-!
Shallow embedding of the NenDB Python driver (`src/nen_python_driver`):
the client configuration (`NenDBClient.__init__`), the transport wrapper
(`NenDBClient._make_request`), the operations (`health`, `graph_stats`,
`bfs`, `dijkstra`, `pagerank`), resource release (`close`), and the error
taxonomy (`exceptions.py`).

Modelling choices:
- Python's dynamically typed call arguments are modelled by `PyVal`, so the
  `isinstance` checks in the validation code can be stated faithfully
  (Python `bool` is a subclass of `int`, so `isinstance(x, int)` accepts it).
- Python `float` is modelled by `ℚ`; the validation code only performs exact
  order comparisons against `0.0` and `1.0`, which agree with the rational
  order on every float value involved.
- Decoded JSON is the inductive `Json`; a response whose body fails JSON
  decoding carries `Option.none` in its `body` field.
- The `requests` session is abstracted as a function from the request
  descriptor to a transport outcome (`Transport`); each operation returns
  the number of times `session.request` was invoked alongside its result,
  so "no transport request is made" is statable.
- String rendering of exception objects (Python `str(e)`) is modelled by a
  simplified deterministic rendering; no claim depends on message text.
-/

namespace NenDB

/-- Decoded JSON values, as produced by `response.json()`.  Python's `json`
module distinguishes ints from floats, so both constructors are kept. -/
inductive Json where
  | null : Json
  | bool : Bool → Json
  | int : ℤ → Json
  | float : ℚ → Json
  | str : String → Json
  | arr : List Json → Json
  | obj : List (String × Json) → Json
deriving BEq

/-- Dynamically typed Python argument values, as far as the client's
validation code inspects them. -/
inductive PyVal where
  | int : ℤ → PyVal
  | float : ℚ → PyVal
  | str : String → PyVal
  | bool : Bool → PyVal
  | none : PyVal
deriving DecidableEq

/-- Python `isinstance(v, int)`: `bool` is a subclass of `int`. -/
def isinstance_int : PyVal → Bool
  | PyVal.int _ => true
  | PyVal.bool _ => true
  | _ => false

/-- Python `isinstance(v, float)`: holds only for actual floats (neither
`int` nor `bool` is accepted). -/
def isinstance_float : PyVal → Bool
  | PyVal.float _ => true
  | _ => false

/-- Python `isinstance(v, str)`. -/
def isinstance_str : PyVal → Bool
  | PyVal.str _ => true
  | _ => false

/-- Integer value of an int-like Python value (`True` counts as `1`).
Only consulted behind an `isinstance` guard, mirroring the short-circuit
`not isinstance(x, int) or x < 0` in the source. -/
def PyVal.toInt : PyVal → ℤ
  | PyVal.int n => n
  | PyVal.bool b => if b then 1 else 0
  | _ => 0

/-- Float value of a float Python value.  Only consulted behind an
`isinstance` guard. -/
def PyVal.toFloat : PyVal → ℚ
  | PyVal.float q => q
  | _ => 0

/-- The error taxonomy of `exceptions.py`: the base class `NenDBError` and
its five subclasses, identified by kind. -/
inductive ErrKind where
  | base : ErrKind
  | connection : ErrKind
  | timeout : ErrKind
  | validation : ErrKind
  | algorithm : ErrKind
  | response : ErrKind
deriving DecidableEq

/-- A raised `NenDBError` (or subclass): `kind` identifies the class,
`message` and `details` are the constructor arguments
(`details or \x7b\x7d` in `NenDBError.__init__`). -/
structure NenDBErr where
  kind : ErrKind
  message : String
  details : List (String × Json)

/-- Simplified rendering of a `Json` value (Python `str` of the decoded
object).  No claim depends on the exact text. -/
def Json.render : Json → String
  | Json.null => "None"
  | Json.bool b => if b then "True" else "False"
  | Json.int n => toString n
  | Json.float q => toString q
  | Json.str s => s
  | Json.arr _ => "[...]"
  | Json.obj _ => "\x7b...\x7d"

/-- Simplified rendering of a details mapping (Python `str` of a dict). -/
def detailsRender : List (String × Json) → String
  | [] => "\x7b\x7d"
  | (k, v) :: rest => k ++ ": " ++ Json.render v ++ "; " ++ detailsRender rest

/-- `NenDBError.__str__`: the message, with `" - Details: ..."` appended
when the details mapping is non-empty. -/
def NenDBErr.toStr (e : NenDBErr) : String :=
  if e.details.isEmpty then e.message
  else e.message ++ " - Details: " ++ detailsRender e.details

/-- The raw HTTP response as `_make_request` observes it: status code,
raw text, and the result of `response.json()` (`Option.none` when the body
fails JSON decoding). -/
structure HttpResponse where
  status_code : ℕ
  text : String
  body : Option Json

/-- The request descriptor handed to `session.request` by `_make_request`
(method, endpoint path, optional JSON body).  URL joining and query
parameters carry no content relevant to the claims. -/
structure Request where
  method : String
  endpoint : String
  data : Option Json

/-- Outcome of one `session.request` invocation: a response, or one of the
`requests` exception classes the source discriminates on.  Adapter-level
retries happen inside the session and are not observable here. -/
inductive TransportResult where
  | ok : HttpResponse → TransportResult
  | timeout : TransportResult
  | connectionError : String → TransportResult
  | otherError : String → TransportResult

/-- The session, abstracted to its observable behaviour. -/
def Transport : Type := Request → TransportResult

/-- `requests.Response.raise_for_status` raises `HTTPError` exactly for
status codes in `[400, 600)`. -/
def raise_for_status_raises (status : ℕ) : Bool :=
  decide (400 ≤ status ∧ status < 600)

/-- Python `dict.get(key)` on a string-keyed mapping (first binding wins;
the source never builds duplicate keys). -/
def lookupField : List (String × Json) → String → Option Json
  | [], _ => Option.none
  | (k, v) :: rest, key => if k = key then Option.some v else lookupField rest key

/-- Rendering of the `requests.exceptions.HTTPError` raised by
`raise_for_status` (simplified `str(e)`). -/
def httpErrorStr (status : ℕ) : String :=
  "HTTP error for status " ++ toString status

/-- `NenDBClient._make_request`, translated statement by statement.

The outer `try` covers both the `session.request` call with
`raise_for_status`, and the inner `try: return response.json() except
json.JSONDecodeError: raise NenDBResponseError(...)`.  The outer handlers
run in source order: `Timeout`, `ConnectionError`, `HTTPError`, then a
bare `except Exception` that wraps anything else — including the
`NenDBResponseError` raised by the inner handler, which is none of the
three `requests` exception classes.  That re-wrap is modelled exactly as
it executes: the caller receives a base-class `NenDBError` whose message
embeds `str(e)` and whose details mapping is empty. -/
def NenDBClient.make_request (session : Transport) (timeout : ℤ) (req : Request) :
    Except NenDBErr Json :=
  match session req with
  | TransportResult.ok resp =>
    if raise_for_status_raises resp.status_code then
      -- `except requests.exceptions.HTTPError`: try to decode an error payload.
      match resp.body with
      | Option.some (Json.obj fields) =>
        -- `error_data.get("error", str(e))` on a decoded dict.
        let emsg := match lookupField fields "error" with
          | Option.some v => Json.render v
          | Option.none => httpErrorStr resp.status_code
        Except.error ⟨ErrKind.response,
          "HTTP error on " ++ req.endpoint ++ ": " ++ emsg,
          [("status_code", Json.int (resp.status_code : ℤ)),
           ("response", Json.obj fields)]⟩
      | _ =>
        -- `response.json()` raised, or `.get` on a non-dict raised:
        -- the inner `except Exception` falls back to the status code alone.
        Except.error ⟨ErrKind.response,
          "HTTP error on " ++ req.endpoint ++ ": " ++ httpErrorStr resp.status_code,
          [("status_code", Json.int (resp.status_code : ℤ))]⟩
    else
      match resp.body with
      | Option.some j => Except.ok j
      | Option.none =>
        -- Inner handler raises NenDBResponseError with status and raw text...
        let inner : NenDBErr := ⟨ErrKind.response,
          "Invalid JSON response from server: decode failure",
          [("status_code", Json.int (resp.status_code : ℤ)),
           ("response_text", Json.str resp.text)]⟩
        -- ...which escapes into the outer `except Exception as e` and is
        -- re-raised as `NenDBError("Unexpected error on ...: " + str(e))`.
        Except.error ⟨ErrKind.base,
          "Unexpected error on " ++ req.endpoint ++ ": " ++ inner.toStr, []⟩
  | TransportResult.timeout =>
    Except.error ⟨ErrKind.timeout,
      "Request to " ++ req.endpoint ++ " timed out after " ++ toString timeout
        ++ " seconds", []⟩
  | TransportResult.connectionError m =>
    Except.error ⟨ErrKind.connection,
      "Connection failed to " ++ req.endpoint ++ ": " ++ m, []⟩
  | TransportResult.otherError m =>
    Except.error ⟨ErrKind.base,
      "Unexpected error on " ++ req.endpoint ++ ": " ++ m, []⟩

/-- The class of a raised error, when the call failed. -/
def resultKind : Except NenDBErr Json → Option ErrKind
  | Except.error e => Option.some e.kind
  | Except.ok _ => Option.none

/-- The details mapping of a raised error (empty on success). -/
def resultDetails : Except NenDBErr Json → List (String × Json)
  | Except.error e => e.details
  | Except.ok _ => []

/-- Python `base_url.rstrip("/")`: remove every trailing `/` character.
`List.rdropWhile p l` is by definition `reverse (dropWhile p (reverse l))`,
the operational behaviour of `rstrip` with a one-character set. -/
def pyRstripSlash (s : String) : String :=
  String.mk (List.rdropWhile (fun c => c == '/') s.data)

/-- Default `base_url` from the `__init__` signature. -/
def DEFAULT_BASE_URL : String := "http://localhost:8080"

/-- Default `timeout` from the `__init__` signature. -/
def DEFAULT_TIMEOUT : ℤ := 30

/-- Default `retries` from the `__init__` signature. -/
def DEFAULT_RETRIES : ℤ := 3

/-- The configuration attributes set by `__init__` (lines 46-48): the
normalized base URL and the timeout and retry counts, stored verbatim. -/
structure ClientCfg where
  base_url : String
  timeout : ℤ
  retries : ℤ
deriving DecidableEq

/-- The attribute-assignment prefix of `NenDBClient.__init__`. -/
def NenDBClient.mk_config (base_url : String) (timeout retries : ℤ) : ClientCfg :=
  ⟨pyRstripSlash base_url, timeout, retries⟩

/-- `NenDBClient.health`: one GET to `/health`; the second component counts
`session.request` invocations made by the call. -/
def NenDBClient.health (cfg : ClientCfg) (session : Transport) :
    Except NenDBErr Json × ℕ :=
  (NenDBClient.make_request session cfg.timeout ⟨"GET", "/health", Option.none⟩, 1)

/-- `NenDBClient.graph_stats`: one GET to `/graph/stats`. -/
def NenDBClient.graph_stats (cfg : ClientCfg) (session : Transport) :
    Except NenDBErr Json × ℕ :=
  (NenDBClient.make_request session cfg.timeout ⟨"GET", "/graph/stats", Option.none⟩, 1)

/-- `NenDBClient.__init__` after the attribute assignments: unless
`skip_validation` is set, probe `GET /health` and wrap any failure in a
`NenDBConnectionError`. -/
def NenDBClient.init (session : Transport) (base_url : String)
    (timeout retries : ℤ) (skip_validation : Bool) : Except NenDBErr ClientCfg :=
  let cfg := NenDBClient.mk_config base_url timeout retries
  if skip_validation then Except.ok cfg
  else
    match (NenDBClient.health cfg session).fst with
    | Except.ok _ => Except.ok cfg
    | Except.error e =>
      Except.error ⟨ErrKind.connection,
        "Failed to connect to NenDB server at " ++ cfg.base_url ++ ": "
          ++ e.toStr, []⟩

/-- Python truthiness of a decoded JSON value (`if filters:`): `None`,
`False`, `0`, `""`, `[]` and `\x7b\x7d` are falsey. -/
def pyTruthy : Json → Bool
  | Json.null => false
  | Json.bool b => b
  | Json.int n => n != 0
  | Json.float q => q != 0
  | Json.str s => !s.isEmpty
  | Json.arr xs => !xs.isEmpty
  | Json.obj fs => !fs.isEmpty

/-- Truthiness of the optional `filters` argument (default `None`). -/
def filtersTruthy : Option Json → Bool
  | Option.none => false
  | Option.some j => pyTruthy j

/-- `NenDBClient.bfs`: validate `start_node` and `max_depth`, then POST to
`/graph/algorithms/bfs`.  A validation failure is raised before
`_make_request`, so the invocation count is `0` on that path. -/
def NenDBClient.bfs (cfg : ClientCfg) (session : Transport)
    (start_node max_depth : PyVal) (filters : Option Json) :
    Except NenDBErr Json × ℕ :=
  if !(isinstance_int start_node) || decide (start_node.toInt < 0) then
    (Except.error ⟨ErrKind.validation,
      "start_node must be a non-negative integer", []⟩, 0)
  else if !(isinstance_int max_depth) || decide (max_depth.toInt < 1) then
    (Except.error ⟨ErrKind.validation,
      "max_depth must be a positive integer", []⟩, 0)
  else
    let base := [("start_node", Json.int start_node.toInt),
                 ("max_depth", Json.int max_depth.toInt)]
    let data := if filtersTruthy filters
      then base ++ [("filters", (filters.getD Json.null))]
      else base
    (NenDBClient.make_request session cfg.timeout
      ⟨"POST", "/graph/algorithms/bfs", Option.some (Json.obj data)⟩, 1)

/-- `NenDBClient.dijkstra`: validate `start_node`, `end_node` and
`weight_property` (the latter only by `isinstance(_, str)`), then POST to
`/graph/algorithms/dijkstra`. -/
def NenDBClient.dijkstra (cfg : ClientCfg) (session : Transport)
    (start_node end_node weight_property : PyVal) :
    Except NenDBErr Json × ℕ :=
  if !(isinstance_int start_node) || decide (start_node.toInt < 0) then
    (Except.error ⟨ErrKind.validation,
      "start_node must be a non-negative integer", []⟩, 0)
  else if !(isinstance_int end_node) || decide (end_node.toInt < 0) then
    (Except.error ⟨ErrKind.validation,
      "end_node must be a non-negative integer", []⟩, 0)
  else if !(isinstance_str weight_property) then
    (Except.error ⟨ErrKind.validation,
      "weight_property must be a string", []⟩, 0)
  else
    let data := [("start_node", Json.int start_node.toInt),
                 ("end_node", Json.int end_node.toInt),
                 ("weight_property",
                   Json.str (match weight_property with
                             | PyVal.str s => s
                             | _ => ""))]
    (NenDBClient.make_request session cfg.timeout
      ⟨"POST", "/graph/algorithms/dijkstra", Option.some (Json.obj data)⟩, 1)

/-- `NenDBClient.pagerank`: validate `iterations` (int ≥ 1),
`damping_factor` (float in `[0.0, 1.0]`) and `tolerance` (float > 0.0),
then POST to `/graph/algorithms/pagerank`.  The `isinstance` checks demand
the exact Python types, so an in-range `int` damping factor or tolerance is
rejected. -/
def NenDBClient.pagerank (cfg : ClientCfg) (session : Transport)
    (iterations damping_factor tolerance : PyVal) :
    Except NenDBErr Json × ℕ :=
  if !(isinstance_int iterations) || decide (iterations.toInt < 1) then
    (Except.error ⟨ErrKind.validation,
      "iterations must be a positive integer", []⟩, 0)
  else if !(isinstance_float damping_factor)
      || !(decide (0 ≤ damping_factor.toFloat ∧ damping_factor.toFloat ≤ 1)) then
    (Except.error ⟨ErrKind.validation,
      "damping_factor must be between 0.0 and 1.0", []⟩, 0)
  else if !(isinstance_float tolerance) || decide (tolerance.toFloat ≤ 0) then
    (Except.error ⟨ErrKind.validation,
      "tolerance must be a positive float", []⟩, 0)
  else
    let data := [("iterations", Json.int iterations.toInt),
                 ("damping_factor", Json.float damping_factor.toFloat),
                 ("tolerance", Json.float tolerance.toFloat)]
    (NenDBClient.make_request session cfg.timeout
      ⟨"POST", "/graph/algorithms/pagerank", Option.some (Json.obj data)⟩, 1)

/-- Resource state of a `requests.Session`: the number of live pooled
connections held by its mounted adapters. -/
structure SessionState where
  openConns : ℕ
deriving DecidableEq

/-- `requests.Session.close()`: closes every mounted adapter, releasing all
pooled connections.  Returns the new state and how many connections were
released by this call. -/
def SessionState.close (s : SessionState) : SessionState × ℕ :=
  (⟨0⟩, s.openConns)

/-- A constructed client as `close` sees it: the configuration attributes
plus the session's resource state.  (`self.session` is always a live
session object after `__init__`, never `None`.) -/
structure ClientState where
  base_url : String
  timeout : ℤ
  retries : ℤ
  session : SessionState
deriving DecidableEq

/-- `NenDBClient.close`: `if self.session: self.session.close()`.  The
session attribute is a session object (truthy), so the branch always runs;
the call returns the new client state and the number of connections
released. -/
def NenDBClient.close (c : ClientState) : ClientState × ℕ :=
  let r := c.session.close
  (⟨c.base_url, c.timeout, c.retries, r.fst⟩, r.snd)

/-- Spec side, for the refinement claim about URL normalization: "the
argument with all trailing `/` characters removed", written by direct
recursion on the character list: a character is kept unless it is a `/`
followed only by characters that are all removed. -/
def stripTrailingSlashes : List Char → List Char
  | [] => []
  | c :: cs =>
    if stripTrailingSlashes cs = [] ∧ c = '/' then []
    else c :: stripTrailingSlashes cs

/-- A transport whose every response is HTTP 200 with a decodable JSON
body (used to instantiate universally quantified theorems). -/
def okTransport : Transport :=
  fun _ => TransportResult.ok
    ⟨200, "status success", Option.some (Json.obj [("status", Json.str "success")])⟩

/-- A transport on which every request times out. -/
def timeoutTransport : Transport :=
  fun _ => TransportResult.timeout

/-- A transport whose every response is HTTP 404 with a decoded error
payload. -/
def notFoundTransport : Transport :=
  fun _ => TransportResult.ok
    ⟨404, "error not found", Option.some (Json.obj [("error", Json.str "not found")])⟩

/-- A transport whose every response is HTTP 200 with a body that fails
JSON decoding (`response.json()` raises). -/
def badJsonTransport : Transport :=
  fun _ => TransportResult.ok ⟨200, "plain text, not json", Option.none⟩

/-- A concrete configuration for instantiating theorems. -/
def testCfg : ClientCfg := ⟨"http://localhost:8080", 30, 3⟩

/-- Head-side unfolding of `rdropWhile`: a head element survives unless it
is dropped together with the whole tail. -/
theorem rdropWhile_cons (p : Char → Bool) (c : Char) (l : List Char) :
    List.rdropWhile p (c :: l)
      = if List.rdropWhile p l = [] ∧ p c = true then []
        else c :: List.rdropWhile p l := by
  simp only [List.rdropWhile, List.reverse_cons, List.dropWhile_append]
  cases hq : List.dropWhile p l.reverse with
  | nil =>
    by_cases hc : p c = true
    · simp [hq, hc]
    · simp [hq, hc]
  | cons x xs =>
    simp [hq, List.reverse_append]

/-- The source's `rstrip("/")` computes the spec's "remove all trailing
slash characters". -/
theorem rdropWhile_slash_eq_strip (l : List Char) :
    List.rdropWhile (fun c => c == '/') l = stripTrailingSlashes l := by
  induction l with
  | nil => rfl
  | cons c cs ih =>
    rw [rdropWhile_cons, stripTrailingSlashes, ih]
    simp [beq_iff_eq]

/-- C10: for every `base_url` argument, the constructed configuration's
`base_url` attribute is the argument with all trailing `/` characters
removed; in particular an argument ending in a slash is not reported back
verbatim. -/
theorem C10_base_url_strips_trailing_slashes (u : String) (t r : ℤ) :
    (NenDBClient.mk_config u t r).base_url = String.mk (stripTrailingSlashes u.data)
    ∧ (u.data.getLast? = Option.some '/' → (NenDBClient.mk_config u t r).base_url ≠ u) := by
  constructor
  · unfold NenDBClient.mk_config pyRstripSlash
    rw [rdropWhile_slash_eq_strip]
  · intro hlast heq
    have hdata : List.rdropWhile (fun c => c == '/') u.data = u.data := by
      have := congrArg String.data heq
      simpa [NenDBClient.mk_config, pyRstripSlash] using this
    have hne : u.data ≠ [] := by
      intro hnil
      rw [hnil] at hlast
      exact Option.noConfusion hlast
    have hlastc : u.data.getLast hne = '/' := by
      have := List.getLast?_eq_getLast_of_ne_nil hne
      rw [this] at hlast
      exact Option.some.inj hlast
    have := (List.rdropWhile_eq_self_iff.mp hdata) hne
    rw [hlastc] at this
    simp at this

/-- C10 witness: a concrete URL with three trailing slashes is normalized
and differs from the argument. -/
theorem C10_witness :
    (NenDBClient.mk_config "http://localhost:8080///" 30 3).base_url
      = String.mk (stripTrailingSlashes ("http://localhost:8080///".data))
    ∧ (("http://localhost:8080///".data).getLast? = Option.some '/' →
        (NenDBClient.mk_config "http://localhost:8080///" 30 3).base_url
          ≠ "http://localhost:8080///") :=
  C10_base_url_strips_trailing_slashes "http://localhost:8080///" 30 3

/-- C8: `close` is idempotent: the second call releases zero resources,
returns the same state, and the configuration attributes are unchanged by
closing. -/
theorem C8_close_idempotent (c : ClientState) :
    (NenDBClient.close (NenDBClient.close c).fst).snd = 0
    ∧ (NenDBClient.close c).fst.base_url = c.base_url
    ∧ (NenDBClient.close c).fst.timeout = c.timeout
    ∧ (NenDBClient.close c).fst.retries = c.retries
    ∧ (NenDBClient.close (NenDBClient.close c).fst).fst = (NenDBClient.close c).fst := by
  obtain ⟨b, t, r, ⟨n⟩⟩ := c
  simp [NenDBClient.close, SessionState.close]

/-- C8 witness: the double-close behaviour at a concrete client state with
five live pooled connections. -/
theorem C8_witness :
    (NenDBClient.close (NenDBClient.close ⟨"http://localhost:8080", 30, 3, ⟨5⟩⟩).fst).snd = 0
    ∧ (NenDBClient.close (⟨"http://localhost:8080", 30, 3, ⟨5⟩⟩ : ClientState)).fst.base_url
        = (⟨"http://localhost:8080", 30, 3, ⟨5⟩⟩ : ClientState).base_url
    ∧ (NenDBClient.close (⟨"http://localhost:8080", 30, 3, ⟨5⟩⟩ : ClientState)).fst.timeout
        = (⟨"http://localhost:8080", 30, 3, ⟨5⟩⟩ : ClientState).timeout
    ∧ (NenDBClient.close (⟨"http://localhost:8080", 30, 3, ⟨5⟩⟩ : ClientState)).fst.retries
        = (⟨"http://localhost:8080", 30, 3, ⟨5⟩⟩ : ClientState).retries
    ∧ (NenDBClient.close (NenDBClient.close ⟨"http://localhost:8080", 30, 3, ⟨5⟩⟩).fst).fst
        = (NenDBClient.close (⟨"http://localhost:8080", 30, 3, ⟨5⟩⟩ : ClientState)).fst :=
  C8_close_idempotent ⟨"http://localhost:8080", 30, 3, ⟨5⟩⟩

/-- C1: for every integer `start_node < 0`, both `bfs` and `dijkstra` fail
with a `NenDBValidationError` and the session's request method is invoked
zero times (`_make_request` is never reached). -/
theorem C1_negative_start_rejected_offline
    (cfg : ClientCfg) (session : Transport) (n : ℤ)
    (max_depth end_node weight_property : PyVal) (filters : Option Json)
    (h : n < 0) :
    (NenDBClient.bfs cfg session (PyVal.int n) max_depth filters).snd = 0
    ∧ resultKind (NenDBClient.bfs cfg session (PyVal.int n) max_depth filters).fst
        = Option.some ErrKind.validation
    ∧ (NenDBClient.dijkstra cfg session (PyVal.int n) end_node weight_property).snd = 0
    ∧ resultKind (NenDBClient.dijkstra cfg session (PyVal.int n) end_node weight_property).fst
        = Option.some ErrKind.validation := by
  refine ⟨?_, ?_, ?_, ?_⟩ <;>
    simp [NenDBClient.bfs, NenDBClient.dijkstra, isinstance_int, PyVal.toInt,
      resultKind, h]

/-- C1 witness: `start_node = -1` is rejected offline by both algorithms. -/
theorem C1_witness :
    (NenDBClient.bfs testCfg okTransport (PyVal.int (-1)) (PyVal.int 3) Option.none).snd = 0
    ∧ resultKind (NenDBClient.bfs testCfg okTransport (PyVal.int (-1))
        (PyVal.int 3) Option.none).fst = Option.some ErrKind.validation
    ∧ (NenDBClient.dijkstra testCfg okTransport (PyVal.int (-1)) (PyVal.int 5)
        (PyVal.str "weight")).snd = 0
    ∧ resultKind (NenDBClient.dijkstra testCfg okTransport (PyVal.int (-1))
        (PyVal.int 5) (PyVal.str "weight")).fst = Option.some ErrKind.validation :=
  C1_negative_start_rejected_offline testCfg okTransport (-1) (PyVal.int 3)
    (PyVal.int 5) (PyVal.str "weight") Option.none (by decide)

/-- C6: a transport-level timeout is classified as the Timeout error kind,
not as ConnectionFailure — stated over `_make_request` with an arbitrary
request descriptor, which every operation of the client funnels through;
the second conjunct instantiates this at the `health` operation. -/
theorem C6_timeout_not_connection
    (cfg : ClientCfg) (session : Transport) (timeout : ℤ) (req : Request)
    (hreq : session req = TransportResult.timeout)
    (hhealth : session ⟨"GET", "/health", Option.none⟩ = TransportResult.timeout) :
    (resultKind (NenDBClient.make_request session timeout req)
        = Option.some ErrKind.timeout
      ∧ resultKind (NenDBClient.make_request session timeout req)
        ≠ Option.some ErrKind.connection)
    ∧ (resultKind (NenDBClient.health cfg session).fst = Option.some ErrKind.timeout
      ∧ resultKind (NenDBClient.health cfg session).fst
        ≠ Option.some ErrKind.connection) := by
  constructor
  · unfold NenDBClient.make_request
    rw [hreq]
    simp [resultKind]
  · unfold NenDBClient.health NenDBClient.make_request
    rw [hhealth]
    simp [resultKind]

/-- C6 witness: on the always-timing-out transport, both an arbitrary
request (here a pagerank dispatch) and the `health` operation yield the
Timeout kind, not ConnectionFailure. -/
theorem C6_witness :
    (resultKind (NenDBClient.make_request timeoutTransport 30
        ⟨"POST", "/graph/algorithms/pagerank", Option.none⟩)
        = Option.some ErrKind.timeout
      ∧ resultKind (NenDBClient.make_request timeoutTransport 30
        ⟨"POST", "/graph/algorithms/pagerank", Option.none⟩)
        ≠ Option.some ErrKind.connection)
    ∧ (resultKind (NenDBClient.health testCfg timeoutTransport).fst
        = Option.some ErrKind.timeout
      ∧ resultKind (NenDBClient.health testCfg timeoutTransport).fst
        ≠ Option.some ErrKind.connection) :=
  C6_timeout_not_connection testCfg timeoutTransport 30
    ⟨"POST", "/graph/algorithms/pagerank", Option.none⟩ rfl rfl

/-- C2: evaluation at the failing input — a 200 response whose body fails
JSON decoding.  The `NenDBResponseError` raised by the inner handler is
caught by the outer `except Exception` (the last handler of
`_make_request`) and re-raised as a base-class `NenDBError`, so the caller
observes the base kind, not ResponseFailure, and an empty details mapping
(the status code and raw text are lost).  This contradicts the claim. -/
theorem C2_invalid_json_degraded_to_generic :
    resultKind (NenDBClient.health testCfg badJsonTransport).fst = Option.some ErrKind.base
    ∧ resultKind (NenDBClient.health testCfg badJsonTransport).fst
        ≠ Option.some ErrKind.response
    ∧ resultDetails (NenDBClient.health testCfg badJsonTransport).fst = [] := by
  refine ⟨rfl, ?_, rfl⟩
  intro hcontra
  exact ErrKind.noConfusion (Option.some.inj hcontra)

/-- C3: a ranking call with `iterations < 1`, or a damping factor outside
`[0.0, 1.0]`, or a tolerance `≤ 0.0`, fails with a `NenDBValidationError`
and zero transport invocations. -/
theorem C3_pagerank_out_of_range_rejected
    (cfg : ClientCfg) (session : Transport) (i : ℤ) (d t : ℚ)
    (h : i < 1 ∨ d < 0 ∨ 1 < d ∨ t ≤ 0) :
    (NenDBClient.pagerank cfg session (PyVal.int i) (PyVal.float d) (PyVal.float t)).snd = 0
    ∧ resultKind (NenDBClient.pagerank cfg session (PyVal.int i) (PyVal.float d)
        (PyVal.float t)).fst = Option.some ErrKind.validation := by
  by_cases h1 : i < 1
  · refine ⟨?_, ?_⟩ <;>
      simp [NenDBClient.pagerank, isinstance_int, PyVal.toInt, resultKind, h1]
  · by_cases h2 : 0 ≤ d ∧ d ≤ 1
    · have ht : t ≤ 0 := by
        rcases h with h | h | h | h
        · exact absurd h h1
        · exact absurd h (not_lt.mpr h2.1)
        · exact absurd h (not_lt.mpr h2.2)
        · exact h
      refine ⟨?_, ?_⟩ <;>
        simp [NenDBClient.pagerank, isinstance_int, isinstance_float,
          PyVal.toInt, PyVal.toFloat, resultKind, h1, h2, ht]
    · refine ⟨?_, ?_⟩ <;>
        simp [NenDBClient.pagerank, isinstance_int, isinstance_float,
          PyVal.toInt, PyVal.toFloat, resultKind, h1, h2]

/-- C3 witness: a damping factor of `2.0` is rejected offline. -/
theorem C3_witness :
    (NenDBClient.pagerank testCfg okTransport (PyVal.int 100) (PyVal.float 2)
      (PyVal.float 1)).snd = 0
    ∧ resultKind (NenDBClient.pagerank testCfg okTransport (PyVal.int 100)
        (PyVal.float 2) (PyVal.float 1)).fst = Option.some ErrKind.validation :=
  C3_pagerank_out_of_range_rejected testCfg okTransport 100 2 1
    (Or.inr (Or.inr (Or.inl (by norm_num))))

/-- C9: the `isinstance(_, float)` checks in `pagerank` demand the exact
float type: an `int`-typed damping factor is rejected even when its value
lies in `[0, 1]`, and an `int`-typed positive tolerance is rejected as
well, whatever the other arguments are. -/
theorem C9_pagerank_int_typed_params_rejected
    (cfg : ClientCfg) (session : Transport) (it dp tol : PyVal) (k m : ℤ)
    (_hk0 : 0 ≤ k) (_hk1 : k ≤ 1) (_hm : 0 < m) :
    ((NenDBClient.pagerank cfg session it (PyVal.int k) tol).snd = 0
      ∧ resultKind (NenDBClient.pagerank cfg session it (PyVal.int k) tol).fst
          = Option.some ErrKind.validation)
    ∧ ((NenDBClient.pagerank cfg session it dp (PyVal.int m)).snd = 0
      ∧ resultKind (NenDBClient.pagerank cfg session it dp (PyVal.int m)).fst
          = Option.some ErrKind.validation) := by
  constructor
  · unfold NenDBClient.pagerank
    split
    · exact ⟨rfl, rfl⟩
    · simp [isinstance_float, resultKind]
  · unfold NenDBClient.pagerank
    split
    · exact ⟨rfl, rfl⟩
    · split
      · exact ⟨rfl, rfl⟩
      · simp [isinstance_float, resultKind]

/-- C9 witness: `damping_factor = 0` and `tolerance = 1`, both passed as
ints, are rejected despite being in range. -/
theorem C9_witness :
    ((NenDBClient.pagerank testCfg okTransport (PyVal.int 100) (PyVal.int 0)
        (PyVal.float 1)).snd = 0
      ∧ resultKind (NenDBClient.pagerank testCfg okTransport (PyVal.int 100)
          (PyVal.int 0) (PyVal.float 1)).fst = Option.some ErrKind.validation)
    ∧ ((NenDBClient.pagerank testCfg okTransport (PyVal.int 100) (PyVal.float 1)
        (PyVal.int 1)).snd = 0
      ∧ resultKind (NenDBClient.pagerank testCfg okTransport (PyVal.int 100)
          (PyVal.float 1) (PyVal.int 1)).fst = Option.some ErrKind.validation) :=
  C9_pagerank_int_typed_params_rejected testCfg okTransport (PyVal.int 100)
    (PyVal.float 1) (PyVal.float 1) 0 1 (by decide) (by decide) (by decide)

/-- C4 counterexample: `dijkstra` called with the empty string as
`weight_property` (and valid node ids) does not raise a validation error:
the call reaches the transport and one request is dispatched, refuting the
claim that the empty string is rejected before any network activity. -/
theorem C4_counterexample_empty_weight_dispatches :
    (NenDBClient.dijkstra testCfg okTransport (PyVal.int 0) (PyVal.int 1)
      (PyVal.str "")).snd = 1
    ∧ resultKind (NenDBClient.dijkstra testCfg okTransport (PyVal.int 0) (PyVal.int 1)
        (PyVal.str "")).fst ≠ Option.some ErrKind.validation := by
  refine ⟨rfl, ?_⟩
  intro hcontra
  exact Option.noConfusion hcontra

/-- C4 amended: `dijkstra` validates `weight_property` only by
`isinstance(_, str)`: a non-string value is rejected with a
`NenDBValidationError` before any transport activity, while every string
value — the empty string included — passes validation, and the request is
dispatched (one transport invocation) when both node ids are valid. -/
theorem C4_weight_property_isinstance_only
    (cfg : ClientCfg) (session : Transport) (s e : ℤ) (wp : PyVal) (w : String)
    (hs : 0 ≤ s) (he : 0 ≤ e) (hwp : isinstance_str wp = false) :
    ((NenDBClient.dijkstra cfg session (PyVal.int s) (PyVal.int e) wp).snd = 0
      ∧ resultKind (NenDBClient.dijkstra cfg session (PyVal.int s) (PyVal.int e) wp).fst
          = Option.some ErrKind.validation)
    ∧ (NenDBClient.dijkstra cfg session (PyVal.int s) (PyVal.int e) (PyVal.str w)).snd
        = 1 := by
  have hs' : ¬(s < 0) := not_lt.mpr hs
  have he' : ¬(e < 0) := not_lt.mpr he
  refine ⟨⟨?_, ?_⟩, ?_⟩
  · simp [NenDBClient.dijkstra, isinstance_int, PyVal.toInt, resultKind, hs', he', hwp]
  · simp [NenDBClient.dijkstra, isinstance_int, PyVal.toInt, resultKind, hs', he', hwp]
  · simp [NenDBClient.dijkstra, isinstance_int, isinstance_str, PyVal.toInt,
      resultKind, hs', he']

/-- C4 amended witness: a non-string weight property (an int) is rejected
offline; the empty string is dispatched. -/
theorem C4_witness :
    ((NenDBClient.dijkstra testCfg okTransport (PyVal.int 0) (PyVal.int 1)
        (PyVal.int 7)).snd = 0
      ∧ resultKind (NenDBClient.dijkstra testCfg okTransport (PyVal.int 0)
          (PyVal.int 1) (PyVal.int 7)).fst = Option.some ErrKind.validation)
    ∧ (NenDBClient.dijkstra testCfg okTransport (PyVal.int 0) (PyVal.int 1)
        (PyVal.str "")).snd = 1 :=
  C4_weight_property_isinstance_only testCfg okTransport 0 1 (PyVal.int 7) ""
    (by decide) (by decide) rfl

/-- C5: a response with an HTTP status in `[400, 600)` (after the
adapter's retries are exhausted) makes `_make_request` raise a
`NenDBResponseError` whose details mapping carries the status code under
the key `status_code`. -/
theorem C5_http_error_carries_status_code
    (session : Transport) (timeout : ℤ) (req : Request) (resp : HttpResponse)
    (hresp : session req = TransportResult.ok resp)
    (h4 : 400 ≤ resp.status_code) (h6 : resp.status_code < 600) :
    resultKind (NenDBClient.make_request session timeout req)
      = Option.some ErrKind.response
    ∧ lookupField (resultDetails (NenDBClient.make_request session timeout req))
        "status_code" = Option.some (Json.int (resp.status_code : ℤ)) := by
  obtain ⟨code, text, body⟩ := resp
  have hr : raise_for_status_raises code = true := by
    simp only [raise_for_status_raises, decide_eq_true_eq]
    exact ⟨h4, h6⟩
  unfold NenDBClient.make_request
  rw [hresp]
  cases body with
  | none => simp [hr, resultKind, resultDetails, lookupField]
  | some j =>
    cases j <;> simp [hr, resultKind, resultDetails, lookupField]

/-- C5 witness: a concrete 404 response surfaces as ResponseFailure with
`status_code = 404` in its details. -/
theorem C5_witness :
    resultKind (NenDBClient.make_request notFoundTransport 30
        ⟨"GET", "/health", Option.none⟩)
      = Option.some ErrKind.response
    ∧ lookupField (resultDetails (NenDBClient.make_request notFoundTransport 30
        ⟨"GET", "/health", Option.none⟩)) "status_code"
      = Option.some (Json.int ((404 : ℕ) : ℤ)) :=
  C5_http_error_carries_status_code notFoundTransport 30
    ⟨"GET", "/health", Option.none⟩
    ⟨404, "error not found", Option.some (Json.obj [("error", Json.str "not found")])⟩
    rfl (by decide) (by decide)

/-- Whatever the transport does, a successfully constructed client carries
exactly the configuration computed from the constructor arguments. -/
theorem NenDBClient.init_ok {session : Transport} {u : String} {t r : ℤ}
    {sv : Bool} {c : ClientCfg}
    (h : NenDBClient.init session u t r sv = Except.ok c) :
    c = NenDBClient.mk_config u t r := by
  unfold NenDBClient.init at h
  cases sv with
  | true =>
    simp at h
    exact h.symm
  | false =>
    simp at h
    split at h
    · exact (Except.ok.inj h).symm
    · exact Except.noConfusion h

/-- C7: constructing a client with explicit `base_url` and `timeout`
round-trips those values through the configuration attributes, the omitted
`retries` takes its default `3`, and a construction from all defaults
reports `http://localhost:8080`, `30` and `3`. -/
theorem C7_config_round_trip_and_defaults
    (session : Transport) (sv : Bool) (c₁ c₂ : ClientCfg)
    (h1 : NenDBClient.init session "http://example.com:9000" 60 DEFAULT_RETRIES sv
            = Except.ok c₁)
    (h2 : NenDBClient.init session DEFAULT_BASE_URL DEFAULT_TIMEOUT DEFAULT_RETRIES sv
            = Except.ok c₂) :
    (c₁.base_url = "http://example.com:9000" ∧ c₁.timeout = 60 ∧ c₁.retries = 3)
    ∧ (c₂.base_url = "http://localhost:8080" ∧ c₂.timeout = 30 ∧ c₂.retries = 3) := by
  rw [NenDBClient.init_ok h1, NenDBClient.init_ok h2]
  exact ⟨⟨by decide, rfl, rfl⟩, ⟨by decide, rfl, rfl⟩⟩

/-- C7 witness: concrete construction (health probe skipped, as the tests
do) reports exactly the supplied values and the documented defaults. -/
theorem C7_witness :
    ((⟨"http://example.com:9000", 60, 3⟩ : ClientCfg).base_url = "http://example.com:9000"
      ∧ (⟨"http://example.com:9000", 60, 3⟩ : ClientCfg).timeout = 60
      ∧ (⟨"http://example.com:9000", 60, 3⟩ : ClientCfg).retries = 3)
    ∧ ((⟨"http://localhost:8080", 30, 3⟩ : ClientCfg).base_url = "http://localhost:8080"
      ∧ (⟨"http://localhost:8080", 30, 3⟩ : ClientCfg).timeout = 30
      ∧ (⟨"http://localhost:8080", 30, 3⟩ : ClientCfg).retries = 3) :=
  C7_config_round_trip_and_defaults okTransport true
    ⟨"http://example.com:9000", 60, 3⟩ ⟨"http://localhost:8080", 30, 3⟩ rfl rfl

end NenDB
